import Mathlib

/-
Verification development for the fallible-api repository.

The repository source (src/src/server.js) contains several concatenated
historical variants of the same module.  The first variant, called V1 below,
is the current implementation: it is the only one that imports
validateWebSocketMessage from ./shared.js (src/unnamed/part_005), and it is
the variant matched by the second section of src/src/server.d.ts.  The second
variant, called V2 below, is the newest historical variant; it contains the
content-negotiation (Accept) machinery and the UpgradeRequired upgrade check
that V1 no longer has.

External collaborators (the fallible-server parsing helpers, the hapi accept
parsers, the runtypes validators and the JSON built-ins) are passed to the
embedded functions as parameters; everything else is translated directly from
the source.
-/

/-- Lookup of a key in a JS plain object modelled as an association list;
returns the first binding, none when the key is absent (undefined). -/
def hget (l : List (String × String)) (k : String) : Option String :=
  (l.find? (fun p => p.1 = k)).map (fun p => p.2)

/-- Test of key presence, modelling the JS Map.has method. -/
def mapHas (l : List (String × String)) (k : String) : Bool :=
  (l.find? (fun p => p.1 = k)).isSome

/-- Update modelling the JS Map.set method: replaces the value under an
existing key in place, otherwise appends the new binding. -/
def mapSet (l : List (String × String)) (k v : String) : List (String × String) :=
  if mapHas l k then
    l.map (fun p => if p.1 = k then (k, v) else p)
  else
    l ++ [(k, v)]

/-- Model of the JS String.startsWith method via the character lists of the
two strings. -/
def jsStartsWith (s pre : String) : Bool :=
  pre.data.isPrefixOf s.data

/-- Nonnegative JS numbers as used by the multipart size configuration:
a natural number, Infinity, or NaN. -/
inductive JSNum where
  | num (n : Nat)
  | inf
  | nan
  deriving DecidableEq, Repr

/-- Multiplication of JS numbers; in JS, 0 * Infinity is NaN. -/
def jmul : JSNum → JSNum → JSNum
  | .nan, _ => .nan
  | _, .nan => .nan
  | .num a, .num b => .num (a * b)
  | .num 0, .inf => .nan
  | .num _, .inf => .inf
  | .inf, .num 0 => .nan
  | .inf, .num _ => .inf
  | .inf, .inf => .inf

/-- Addition of JS numbers; Infinity absorbs, NaN propagates. -/
def jadd : JSNum → JSNum → JSNum
  | .nan, _ => .nan
  | _, .nan => .nan
  | .num a, .num b => .num (a + b)
  | _, _ => .inf

/-- Strict greater-than on JS numbers; every comparison with NaN is false. -/
def jgt : JSNum → JSNum → Bool
  | .nan, _ => false
  | _, .nan => false
  | .num a, .num b => decide (b < a)
  | .inf, .num _ => true
  | .num _, .inf => false
  | .inf, .inf => false

/-- Conversion of an optional configured size to a JS number, with the
destructuring default Infinity used by the source when the field is absent. -/
def jsOfOpt (o : Option Nat) : JSNum :=
  (o.map JSNum.num).getD .inf

/-- Result of a runtypes validator, treated as an opaque external capability:
success carries the validated value, failure an opaque diagnostic. -/
inductive VResult (α : Type) where
  | success (value : α)
  | failure
  deriving DecidableEq, Repr

/-- Failure value of the external fallible-server parseWebSocketHeaders
helper; its contents are opaque to the repository code, which only stores or
rethrows it. -/
structure WSParseError where
  code : String
  deriving DecidableEq, Repr

/-- Success value of the external fallible-server parseWebSocketHeaders
helper; opaque to the repository code. -/
structure ParsedWS where
  key : String
  deriving DecidableEq, Repr

/-- Data carried by one inbound WebSocket frame: a text frame or a binary
frame. -/
inductive WSData where
  | text (s : String)
  | binary (bytes : List Nat)
  deriving DecidableEq, Repr

/-- Tagged error values produced by the pipeline stages, one constructor per
tag string occurring in the source, with the context fields the source
attaches.  The type parameter is the type of parsed JSON values, which the
repository treats opaquely. -/
inductive ETag (α : Type) where
  | WrongMethod (method : String)
  | UpgradeDenied
  | UpgradeRequired
  | UpgradeError (error : WSParseError)
  | CSRFHeaderRequired
  | AuthRequired
  | InvalidAcceptHeader (header : Option String)
  | InvalidAcceptCharsetHeader (header : Option String)
  | UnsupportedContentEncodingHeader (header : String)
  | InvalidContentTypeHeader (header : Option String)
  | InvalidContentLengthHeader (header : Option String)
  | MultipartFileBelowMinimumSize
  | MultipartMaximumTotalFileSizeExceeded
  | JSONMaximumSizeExceeded
  | URLQueryRequired
  | URLQueryMalformed (query : String)
  | URLQueryInputInvalid (input : α)
  | MultipartJSONFieldRequired
  | MultipartJSONFieldMalformed (field : String)
  | MultipartJSONFieldInputInvalid (input : α)
  deriving DecidableEq, Repr

/-- Constant JSON_KEY from src/src/constants.d.ts. -/
def JSON_KEY : String := "json"

/-- Constant CSRF_HEADER from src/src/constants.d.ts. -/
def CSRF_HEADER : String := "X-CSRF"

/-- Constant AUTH_COOKIE_NAME from src/src/constants.d.ts. -/
def AUTH_COOKIE_NAME : String := "auth"

/-- Multipart limits of the request configuration (section 6 of the spec);
every field is optional. -/
structure MultipartConfig where
  minimumFileSize : Option Nat := none
  maximumFileSize : Option Nat := none
  maximumFileCount : Option Nat := none
  maximumFieldsSize : Option Nat := none
  deriving DecidableEq, Repr

/-- JSON body limits of the request configuration. -/
structure JSONConfig where
  maximumSize : Option Nat := none
  deriving DecidableEq, Repr

/-- Request configuration handed to the content checks through the pipeline
state. -/
structure Config where
  multipart : Option MultipartConfig := none
  json : Option JSONConfig := none
  deriving DecidableEq, Repr

/-- URL of the request; only the search parameters are consulted by the
embedded handlers. -/
structure URLModel where
  searchParams : List (String × String)
  deriving DecidableEq, Repr

/-- Incoming message as seen by the V1 headers handler: its method and its
header object. -/
structure Message where
  method : String
  headers : List (String × String)
  deriving DecidableEq, Repr

/-- Pipeline state at the start of the request: cookies, configuration and
parsed URL. -/
structure ReqState where
  cookies : List (String × String)
  config : Config
  url : URLModel
  deriving DecidableEq, Repr

/-- Kind of a declared response, the type field of a Responses entry.  The
schema declarations admit html and json; the V1 final handler additionally
switches on a vestigial binary kind. -/
inductive RespKind where
  | html
  | json
  | binary
  deriving DecidableEq, Repr

/-- WebSocket sub-contract of an endpoint: the up and down message shapes,
modelled as opaque validators. -/
structure WSComm (α : Type) where
  up : α → VResult α
  down : α → VResult α

/-- Endpoint descriptor (section 3 of the spec, schema.d.ts): optional method
defaulting to GET, optional auth, optional input shape, optional files map,
status-to-response map, optional websocket sub-contract. -/
structure Endpoint (α : Type) where
  method : Option String := none
  auth : Option String := none
  input : Option (α → VResult α) := none
  files : Option (List String) := none
  responses : List (Nat × RespKind) := []
  websocket : Option (WSComm α) := none

/-- Computation of the hasJSONResponse and hasHTMLResponse flags of
createEndpointHandler: a loop over the response values setting hasHTMLResponse
for html entries and hasJSONResponse for every other entry, exiting early once
both are set.  Arguments are the accumulated (hasJSONResponse,
hasHTMLResponse) flags. -/
def responseFlags : List (Nat × RespKind) → Bool → Bool → Bool × Bool
  | [], hasJSON, hasHTML => (hasJSON, hasHTML)
  | (_, k) :: rest, hasJSON, hasHTML =>
    let hasHTML := if k = .html then true else hasHTML
    let hasJSON := if k = .html then hasJSON else true
    if hasHTML && hasJSON then (hasJSON, hasHTML)
    else responseFlags rest hasJSON hasHTML

/-- Lookup of the response declared for a status, modelling the JS object
index endpoint.responses[status]. -/
def lookupResponse (rs : List (Nat × RespKind)) (status : Nat) : Option RespKind :=
  (rs.find? (fun p => p.1 = status)).map (fun p => p.2)

/-- Parsed content-type header as returned by the external
parseCharSetContentTypeHeader helper. -/
structure CharSetContentType where
  type : String
  characterSet : Option String
  deriving DecidableEq, Repr

namespace ServerV1

/-- Choice of upgrade check made by createEndpointHandler (V1): websocket
endpoint with responses, websocket endpoint without responses, or ordinary
endpoint. -/
inductive UpgradeCheck where
  | wsWithResponses
  | wsNoResponses
  | nonWS
  deriving DecidableEq, Repr

/-- Choice of auth check made by createEndpointHandler (V1); any other auth
value makes the compiler throw. -/
inductive AuthCheck where
  | required
  | optional
  deriving DecidableEq, Repr

/-- Choice of content check made by createEndpointHandler (V1) for non-GET
methods. -/
inductive ContentCheck where
  | withFiles
  | inputNoFiles
  deriving DecidableEq, Repr

/-- Choice of body parsing strategy made by createEndpointHandler (V1);
noHandler stands for leaving bodyParsingAndValidationHandler undefined. -/
inductive BodyStrategy where
  | getInput
  | filesOnly
  | filesAndInput
  | jsonInput
  | noHandler
  deriving DecidableEq, Repr

/-- Compiled stage set of one endpoint, the result of the static selection
performed once by createEndpointHandler (V1). -/
structure Stages where
  method : String
  checkUpgrade : UpgradeCheck
  checkAuth : AuthCheck
  checkContent : Option ContentCheck
  bodyStrategy : BodyStrategy
  deriving DecidableEq, Repr

/-- Auth stage selection of createEndpointHandler (V1, server.js lines 242
to 254): the switch on the endpoint auth value throws the programming error
for any value other than the strings required and optional, which includes
the value none and an absent auth field. -/
def selectAuthCheck (auth : Option String) : Except String AuthCheck :=
  match auth with
  | some "required" => .ok .required
  | some "optional" => .ok .optional
  | _ => .error "Unexpected endpoint auth type"

/-- Stage selection of createEndpointHandler (V1, server.js lines 206 to
266): computes the response flags, selects the upgrade, auth and content
checks and the body strategy. -/
def compile {α : Type} (ep : Endpoint α) : Except String Stages := do
  let method := ep.method.getD "GET"
  let flags := responseFlags ep.responses false false
  let hasJSON := flags.1
  let hasHTML := flags.2
  let hasResponses := hasJSON || hasHTML
  let checkUpgrade :=
    if ep.websocket.isSome then
      if hasResponses then UpgradeCheck.wsWithResponses else UpgradeCheck.wsNoResponses
    else UpgradeCheck.nonWS
  let checkAuth ← selectAuthCheck ep.auth
  let checkContent :=
    if method ≠ "GET" then
      if ep.files.isNone then
        if ep.input.isSome then some ContentCheck.inputNoFiles else none
      else some ContentCheck.withFiles
    else none
  let bodyStrategy :=
    if method = "GET" then
      if ep.input.isSome then BodyStrategy.getInput else BodyStrategy.noHandler
    else if ep.files.isSome then
      if ep.input.isNone then BodyStrategy.filesOnly else BodyStrategy.filesAndInput
    else if ep.input.isSome then BodyStrategy.jsonInput
    else BodyStrategy.noHandler
  pure {
    method := method
    checkUpgrade := checkUpgrade
    checkAuth := checkAuth
    checkContent := checkContent
    bodyStrategy := bodyStrategy
  }

/-- Auth check for required-auth endpoints (V1, server.js lines 75 to 82):
the CSRF header is checked first, then the auth cookie. -/
def checkAuthForRequiredAuthEndpoint {α : Type}
    (headers cookies : List (String × String)) : Except (ETag α) Unit :=
  match hget headers CSRF_HEADER with
  | none => .error .CSRFHeaderRequired
  | some _ =>
    match hget cookies AUTH_COOKIE_NAME with
    | none => .error .AuthRequired
    | some _ => .ok ()

/-- Auth check for optional-auth endpoints (V1, server.js lines 85 to 89):
only the CSRF header is required. -/
def checkAuthForOptionalAuthEndpoint {α : Type}
    (headers : List (String × String)) : Except (ETag α) Unit :=
  match hget headers CSRF_HEADER with
  | none => .error .CSRFHeaderRequired
  | some _ => .ok ()

/-- Rejection of any Content-Encoding header (V1, server.js lines 92 to
99). -/
def checkContentEncodingForBodyEndpoint {α : Type}
    (headers : List (String × String)) : Except (ETag α) Unit :=
  match hget headers "Content-Encoding" with
  | some h => .error (.UnsupportedContentEncodingHeader h)
  | none => .ok ()

/-- Extraction of the Content-Length header (V1, server.js lines 102 to 114);
the external parseContentLengthHeader helper is the parameter pcl. -/
def getContentLength {α : Type} (pcl : String → Option Nat)
    (headers : List (String × String)) : Except (ETag α) Nat :=
  match hget headers "Content-Length" with
  | none => .error (.InvalidContentLengthHeader none)
  | some h =>
    match pcl h with
    | none => .error (.InvalidContentLengthHeader (some h))
    | some length => .ok length

/-- Content check for endpoints declaring files (V1, server.js lines 117 to
141): rejects content encodings, requires a multipart/form-data content type,
and, only when a multipart configuration is present, bounds the Content-Length
from below by minimumFileSize and from above by maximumFileSize times
maximumFileCount plus maximumFieldsSize, each limit defaulting to Infinity
(minimumFileSize to 0) when absent. -/
def checkContentForBodyEndpointWithFiles {α : Type} (pcl : String → Option Nat)
    (headers : List (String × String)) (config : Config) : Except (ETag α) Unit := do
  checkContentEncodingForBodyEndpoint headers
  match hget headers "Content-Type" with
  | none => throw (.InvalidContentTypeHeader none)
  | some ct =>
    if ¬ jsStartsWith ct "multipart/form-data" then
      throw (.InvalidContentTypeHeader (some ct))
    else
      match config.multipart with
      | none => pure ()
      | some mp => do
        let minimumFileSize := mp.minimumFileSize.getD 0
        let maximumFileSize := jsOfOpt mp.maximumFileSize
        let maximumFileCount := jsOfOpt mp.maximumFileCount
        let maximumFieldsSize := jsOfOpt mp.maximumFieldsSize
        let length ← getContentLength pcl headers
        if length < minimumFileSize then
          throw .MultipartFileBelowMinimumSize
        else if jgt (.num length) (jadd (jmul maximumFileSize maximumFileCount) maximumFieldsSize) then
          throw .MultipartMaximumTotalFileSizeExceeded
        else pure ()

/-- Test for a UTF-8 JSON content type header (V1, server.js lines 28 to 35);
the external parseCharSetContentTypeHeader helper is the parameter pcct.
When the parsed header has no charset parameter the source expression
characterSet optional-chained with match compares undefined with null, which
is true, so a missing charset passes. -/
def isUTF8JSONContentTypeHeader (pcct : String → Option CharSetContentType) :
    Option String → Bool
  | none => false
  | some h =>
    match pcct h with
    | none => false
    | some ct =>
      ct.type = "application/json" &&
        (match ct.characterSet with
          | none => true
          | some cs => cs = "utf8" || cs = "utf-8")

/-- Content check for endpoints declaring input but no files (V1, server.js
lines 144 to 156).  The source compares length with the configured maximum
through the expression length greater-than max nullish-coalesced with
Infinity, which by JS precedence coalesces the boolean, so with no configured
maximum the comparison is false and no error is raised. -/
def checkContentForBodyEndpointWithInputButNoFiles {α : Type}
    (pcl : String → Option Nat) (pcct : String → Option CharSetContentType)
    (headers : List (String × String)) (config : Config) : Except (ETag α) Unit := do
  checkContentEncodingForBodyEndpoint headers
  if ¬ isUTF8JSONContentTypeHeader pcct (hget headers "Content-Type") then
    throw (.InvalidContentTypeHeader (hget headers "Content-Type"))
  else do
    let length ← getContentLength pcl headers
    match config.json.bind (fun j => j.maximumSize) with
    | none => pure ()
    | some m => if m < length then throw .JSONMaximumSizeExceeded else pure ()

/-- Decidable equality for Except values, needed to evaluate the embedded
handlers on concrete inputs. -/
instance exceptDecEq {ε α : Type} [DecidableEq ε] [DecidableEq α] :
    DecidableEq (Except ε α) := fun a b =>
  match a, b with
  | .error e, .error f =>
    if h : e = f then .isTrue (congrArg Except.error h)
    else .isFalse (fun hh => h (Except.error.inj hh))
  | .ok x, .ok y =>
    if h : x = y then .isTrue (congrArg Except.ok h)
    else .isFalse (fun hh => h (Except.ok.inj hh))
  | .error _, .ok _ => .isFalse (fun hh => Except.noConfusion hh)
  | .ok _, .error _ => .isFalse (fun hh => Except.noConfusion hh)

/-- Value stored in the webSocket field of the state after the headers stage
(V1): undefined for ordinary endpoints, the parsed headers for websocket
endpoints without responses, and the whole parse result for websocket
endpoints with responses. -/
inductive WSField where
  | jsUndefined
  | parsed (p : ParsedWS)
  | result (r : Except WSParseError ParsedWS)
  deriving DecidableEq, Repr

/-- Dispatch of the selected upgrade check (V1, server.js lines 53 to 72):
with responses the parse result is carried without failing; without responses
a parse failure is thrown as UpgradeError; ordinary endpoints reject any
Upgrade header as UpgradeDenied. -/
def runCheckUpgrade {α : Type} (c : UpgradeCheck)
    (pwsh : List (String × String) → Except WSParseError ParsedWS)
    (headers : List (String × String)) : Except (ETag α) WSField :=
  match c with
  | .wsWithResponses => .ok (.result (pwsh headers))
  | .wsNoResponses =>
    match pwsh headers with
    | .error e => .error (.UpgradeError e)
    | .ok v => .ok (.parsed v)
  | .nonWS =>
    match hget headers "Upgrade" with
    | some _ => .error .UpgradeDenied
    | none => .ok .jsUndefined

/-- Dispatch of the selected auth check (V1). -/
def runCheckAuth {α : Type} (c : AuthCheck)
    (headers cookies : List (String × String)) : Except (ETag α) Unit :=
  match c with
  | .required => checkAuthForRequiredAuthEndpoint headers cookies
  | .optional => checkAuthForOptionalAuthEndpoint headers

/-- Dispatch of the selected content check (V1); none models an undefined
checkContent, which the headers handler skips. -/
def runCheckContent {α : Type} (c : Option ContentCheck)
    (pcl : String → Option Nat) (pcct : String → Option CharSetContentType)
    (headers : List (String × String)) (config : Config) : Except (ETag α) Unit :=
  match c with
  | none => .ok ()
  | some .withFiles => checkContentForBodyEndpointWithFiles pcl headers config
  | some .inputNoFiles =>
    checkContentForBodyEndpointWithInputButNoFiles pcl pcct headers config

/-- State after a successful V1 headers stage: the request state enriched
with the webSocket field and the token read from the auth cookie. -/
structure HeadersOut where
  cookies : List (String × String)
  config : Config
  url : URLModel
  webSocket : WSField
  token : Option String
  deriving DecidableEq, Repr

/-- Headers handler of the compiled V1 pipeline (server.js lines 268 to 292):
rejects a method mismatch as WrongMethod, then runs the upgrade, auth and
content checks in that order, the first thrown tag short-circuiting; on
success the state gains the webSocket value and the token read from the auth
cookie. -/
def headersHandlerRun {α : Type} (stages : Stages)
    (pwsh : List (String × String) → Except WSParseError ParsedWS)
    (pcl : String → Option Nat) (pcct : String → Option CharSetContentType)
    (msg : Message) (state : ReqState) : Except (ETag α) HeadersOut :=
  if msg.method ≠ stages.method then
    .error (.WrongMethod msg.method)
  else do
    let webSocket ← runCheckUpgrade stages.checkUpgrade pwsh msg.headers
    runCheckAuth stages.checkAuth msg.headers state.cookies
    runCheckContent stages.checkContent pcl pcct msg.headers state.config
    pure {
      cookies := state.cookies
      config := state.config
      url := state.url
      webSocket := webSocket
      token := hget state.cookies AUTH_COOKIE_NAME
    }

/-- Body parsing and validation handler selected for GET endpoints with an
input shape (V1, server.js lines 296 to 324): reads the JSON query parameter,
parses it with the external parseJSONString helper (parameter pjs, none
modelling a thrown parse error) and validates it with the endpoint input
validator; on success the state gains the validated value as its input
field, modelled as the second component of the returned pair. -/
def bodyHandlerGETInput {α : Type} (pjs : String → Option α)
    (validate : α → VResult α) (state : ReqState) :
    Except (ETag α) (ReqState × α) :=
  match hget state.url.searchParams JSON_KEY with
  | none => .error .URLQueryRequired
  | some jsonParam =>
    match pjs jsonParam with
    | none => .error (.URLQueryMalformed jsonParam)
    | some json =>
      match validate json with
      | .failure => .error (.URLQueryInputInvalid json)
      | .success v => .ok (state, v)

/-- Outcome of the parseMultipart helper: the validated files and the raw
fields of the multipart body.  The helper itself wraps the external
parseMultipartRequest collaborator, so the embedded body handler takes its
outcome as a parameter. -/
structure MultipartOut where
  files : List (String × String)
  fields : List (String × String)
  deriving DecidableEq, Repr

/-- Body parsing and validation handler selected for non-GET endpoints
declaring files and input (V1, server.js lines 345 to 384): a thrown
multipart tag is returned as the error response, then the designated JSON
field is required, parsed and validated; on success the state gains the
validated input and the files. -/
def bodyHandlerFilesAndInput {α : Type}
    (multipartOutcome : Except (ETag α) MultipartOut)
    (pjs : String → Option α) (validate : α → VResult α) (state : ReqState) :
    Except (ETag α) (ReqState × α × List (String × String)) :=
  match multipartOutcome with
  | .error e => .error e
  | .ok parsed =>
    match hget parsed.fields JSON_KEY with
    | none => .error .MultipartJSONFieldRequired
    | some field =>
      match pjs field with
      | none => .error (.MultipartJSONFieldMalformed field)
      | some json =>
        match validate json with
        | .failure => .error (.MultipartJSONFieldInputInvalid json)
        | .success v => .ok (state, v, parsed.files)

/-- State reaching the V1 final handler: either the websocket accept state,
recognised by the source through the accept key being present, or the
status-headers-body record returned by the user body stage.  The response
headers at this stage are a JS Map. -/
inductive FinalState (β : Type) where
  | acceptState
  | responseState (status : Nat) (headers : List (String × String)) (body : β)
  deriving DecidableEq, Repr

/-- Body of a shaped response: the body passed through unchanged for html
responses, or the JSON string produced for json responses. -/
inductive ShapedBody (β : Type) where
  | passthrough (b : β)
  | jsonString (s : String)
  deriving DecidableEq, Repr

/-- Shaped outcome of the V1 final handler: the websocket accept response
with its wrapped message callback, or an ordinary response. -/
inductive Shaped (β : Type) where
  | websocketAccept
  | response (status : Nat) (headers : List (String × String))
      (body : ShapedBody β)
  deriving DecidableEq, Repr

/-- Final handler of the compiled V1 pipeline (server.js lines 414 to 451),
the Response Shaper.  The accept state becomes the websocket response with
the wrapped callback.  Otherwise the handler switches on the response kind
declared for the returned status: html passes the state through, json
serialises the body with the external JSON.stringify built-in (parameter
stringify) and defaults the Content-Type header only when the headers map has
none, and a status with no declared response throws the programming error.
The vestigial binary branch, unreachable under the schema declarations, which
admit only html and json response kinds, dereferences the misspelled field
state.header and is modelled as the thrown TypeError. -/
def finalHandler {α β : Type} (stringify : β → String) (ep : Endpoint α) :
    FinalState β → Except String (Shaped β)
  | .acceptState => .ok .websocketAccept
  | .responseState status headers body =>
    match lookupResponse ep.responses status with
    | some .html => .ok (.response status headers (.passthrough body))
    | some .json =>
      let headers :=
        if mapHas headers "Content-Type" then headers
        else mapSet headers "Content-Type" "application/json; charset=utf-8"
      .ok (.response status headers (.jsonString (stringify body)))
    | some .binary => .error "TypeError: state.header is undefined"
    | none => .error "Unexpected response status"

end ServerV1

namespace ServerV2

/-- Content type matcher for endpoints declaring only json responses (V2,
server.js lines 503 to 511). -/
def isJSONOrAnyContentType (contentType : String) : Bool :=
  contentType = "application/json" || contentType = "*/*"

/-- Content type matcher for endpoints declaring only html responses (V2,
server.js lines 514 to 522). -/
def isHTMLOrAnyContentType (contentType : String) : Bool :=
  contentType = "text/html" || contentType = "*/*"

/-- Content type matcher for endpoints declaring both html and json
responses (V2, server.js lines 525 to 534). -/
def isHTMLOrJSONOrAnyContentType (contentType : String) : Bool :=
  contentType = "text/html" || contentType = "application/json" ||
    contentType = "*/*"

/-- Test for the two accepted UTF-8 charset spellings (V2, server.js lines
537 to 545). -/
def isUTF8Charset (charset : String) : Bool :=
  charset = "utf-8" || charset = "utf8"

/-- Content negotiation check for endpoints with responses (V2, server.js
lines 673 to 691): skipped for websocket requests; otherwise the Accept
header must exist and one of its preferred media types (computed by the
external hapi mediaTypes parser, parameter pct) must satisfy the selected
matcher, and the Accept-Charset header must exist and one of its preferred
charsets (external hapi charsets parser, parameter pcs) must be UTF-8. -/
def checkAcceptForEndpointWithResponses {α : Type}
    (pct pcs : String → List String)
    (headers : List (String × String)) (isWebsocketRequest : Bool)
    (matchContentType : String → Bool) : Except (ETag α) Unit :=
  if isWebsocketRequest then .ok ()
  else
    match hget headers "Accept" with
    | none => .error (.InvalidAcceptHeader none)
    | some accept =>
      if ¬ (pct accept).any matchContentType then
        .error (.InvalidAcceptHeader (some accept))
      else
        match hget headers "Accept-Charset" with
        | none => .error (.InvalidAcceptCharsetHeader none)
        | some charset =>
          if ¬ (pcs charset).any isUTF8Charset then
            .error (.InvalidAcceptCharsetHeader (some charset))
          else .ok ()

/-- Auth check for required-auth endpoints (V2, server.js lines 656 to 663);
textually identical to the V1 check: CSRF header first, auth cookie
second. -/
def checkAuthForRequiredAuthEndpoint {α : Type}
    (headers cookies : List (String × String)) : Except (ETag α) Unit :=
  match hget headers CSRF_HEADER with
  | none => .error .CSRFHeaderRequired
  | some _ =>
    match hget cookies AUTH_COOKIE_NAME with
    | none => .error .AuthRequired
    | some _ => .ok ()

/-- Auth check for optional-auth endpoints (V2, server.js lines 666 to
670). -/
def checkAuthForOptionalAuthEndpoint {α : Type}
    (headers : List (String × String)) : Except (ETag α) Unit :=
  match hget headers CSRF_HEADER with
  | none => .error .CSRFHeaderRequired
  | some _ => .ok ()

/-- Content type check for body endpoints with files (V2, server.js lines
694 to 701). -/
def checkContentTypeForBodyEndpointWithFiles {α : Type}
    (headers : List (String × String)) : Except (ETag α) Unit :=
  match hget headers "Content-Type" with
  | none => .error (.InvalidContentTypeHeader none)
  | some ct =>
    if ¬ jsStartsWith ct "multipart/form-data" then
      .error (.InvalidContentTypeHeader (some ct))
    else .ok ()

/-- Parsed content type as returned by the external parseContentTypeHeader
helper used by V2. -/
structure ContentTypeParse where
  type : String
  characterSet : Option String
  deriving DecidableEq, Repr

/-- Test for a UTF-8 JSON content type header (V2, server.js lines 548 to
557): unlike V1, an absent charset parameter fails the check. -/
def isUTF8JSONContentTypeHeader (pcth : String → Option ContentTypeParse) :
    Option String → Bool
  | none => false
  | some h =>
    match pcth h with
    | none => false
    | some ct =>
      (match ct.characterSet with
        | none => false
        | some cs => ct.type = "application/json" && isUTF8Charset cs)

/-- Content type check for body endpoints with input but no files (V2,
server.js lines 704 to 711). -/
def checkContentTypeForBodyEndpointWithInputButNoFiles {α : Type}
    (pcth : String → Option ContentTypeParse)
    (headers : List (String × String)) : Except (ETag α) Unit :=
  if ¬ isUTF8JSONContentTypeHeader pcth (hget headers "Content-Type") then
    .error (.InvalidContentTypeHeader (hget headers "Content-Type"))
  else .ok ()

/-- Choice of upgrade check made by createEndpointHandler (V2, server.js
lines 742 to 750): a websocket endpoint with responses installs no upgrade
check at all. -/
inductive UpgradeCheck where
  | wsNoResponses
  | nonWS
  deriving DecidableEq, Repr

/-- Choice of auth check made by createEndpointHandler (V2, server.js lines
752 to 761); the switch has no default case, so any other auth value,
including none and an absent field, installs no auth check. -/
inductive AuthCheck where
  | required
  | optional
  deriving DecidableEq, Repr

/-- Choice of content type check made by createEndpointHandler (V2, server.js
lines 779 to 789). -/
inductive ContentTypeCheck where
  | withFiles
  | inputNoFiles
  deriving DecidableEq, Repr

/-- Choice of content type matcher made by createEndpointHandler (V2,
server.js lines 763 to 772). -/
inductive MatcherChoice where
  | jsonOnly
  | htmlOnly
  | both
  deriving DecidableEq, Repr

/-- Matcher function selected for a matcher choice. -/
def matcherOf : MatcherChoice → (String → Bool)
  | .jsonOnly => isJSONOrAnyContentType
  | .htmlOnly => isHTMLOrAnyContentType
  | .both => isHTMLOrJSONOrAnyContentType

/-- Compiled stage set of one endpoint under V2. -/
structure Stages where
  method : String
  checkUpgrade : Option UpgradeCheck
  checkAuth : Option AuthCheck
  matcher : MatcherChoice
  checkAccept : Bool
  checkContentType : Option ContentTypeCheck
  deriving DecidableEq, Repr

/-- Stage selection of createEndpointHandler (V2, server.js lines 719 to
789).  Unlike V1 this compile step never throws: the auth switch simply
leaves the check unset for auth values other than required and optional. -/
def compile {α : Type} (ep : Endpoint α) : Stages :=
  let method := ep.method.getD "GET"
  let (hasJSON, hasHTML) := responseFlags ep.responses false false
  let hasResponses := hasJSON || hasHTML
  let checkUpgrade :=
    if ep.websocket.isSome then
      if ¬ hasResponses then some UpgradeCheck.wsNoResponses else none
    else some UpgradeCheck.nonWS
  let checkAuth :=
    match ep.auth with
    | some "required" => some AuthCheck.required
    | some "optional" => some AuthCheck.optional
    | _ => none
  let matcher :=
    if hasJSON && ¬ hasHTML then MatcherChoice.jsonOnly
    else if ¬ hasJSON && hasHTML then MatcherChoice.htmlOnly
    else MatcherChoice.both
  let checkContentType :=
    if method ≠ "GET" then
      if ep.files.isNone then
        if ep.input.isSome then some ContentTypeCheck.inputNoFiles else none
      else some ContentTypeCheck.withFiles
    else none
  {
    method := method
    checkUpgrade := checkUpgrade
    checkAuth := checkAuth
    matcher := matcher
    checkAccept := hasResponses
    checkContentType := checkContentType
  }

/-- Dispatch of the selected upgrade check (V2, server.js lines 642 to 653):
a websocket endpoint without responses requires a websocket request, an
ordinary endpoint rejects one. -/
def runCheckUpgrade {α : Type} (c : Option UpgradeCheck)
    (isWebsocketRequest : Bool) : Except (ETag α) Unit :=
  match c with
  | none => .ok ()
  | some .wsNoResponses =>
    if ¬ isWebsocketRequest then .error .UpgradeRequired else .ok ()
  | some .nonWS =>
    if isWebsocketRequest then .error .UpgradeDenied else .ok ()

/-- Dispatch of the selected auth check (V2); none models an undefined
checkAuth, which the headers handler skips. -/
def runCheckAuth {α : Type} (c : Option AuthCheck)
    (headers cookies : List (String × String)) : Except (ETag α) Unit :=
  match c with
  | none => .ok ()
  | some .required => checkAuthForRequiredAuthEndpoint headers cookies
  | some .optional => checkAuthForOptionalAuthEndpoint headers

/-- Dispatch of the selected accept check (V2); installed only when the
endpoint has responses. -/
def runCheckAccept {α : Type} (installed : Bool)
    (pct pcs : String → List String)
    (headers : List (String × String)) (isWebsocketRequest : Bool)
    (matchContentType : String → Bool) : Except (ETag α) Unit :=
  if installed then
    checkAcceptForEndpointWithResponses pct pcs headers isWebsocketRequest
      matchContentType
  else .ok ()

/-- Dispatch of the selected content type check (V2). -/
def runCheckContentType {α : Type} (c : Option ContentTypeCheck)
    (pcth : String → Option ContentTypeParse)
    (headers : List (String × String)) : Except (ETag α) Unit :=
  match c with
  | none => .ok ()
  | some .withFiles => checkContentTypeForBodyEndpointWithFiles headers
  | some .inputNoFiles =>
    checkContentTypeForBodyEndpointWithInputButNoFiles pcth headers

/-- State after a successful V2 headers stage: the request state enriched
with the isWebsocketRequest flag and the token read from the auth cookie. -/
structure HeadersOut where
  cookies : List (String × String)
  config : Config
  url : URLModel
  isWebsocketRequest : Bool
  token : Option String
  deriving DecidableEq, Repr

/-- Headers handler of the compiled V2 pipeline (server.js lines 791 to 819):
rejects a method mismatch, computes the isWebsocketRequest flag through the
external messageIsWebSocketRequest helper (passed as the flag itself), then
runs the upgrade, auth, accept and content type checks in that order; on
success the state gains the flag and the token read from the auth cookie. -/
def headersHandlerRun {α : Type} (stages : Stages) (isWebsocketRequest : Bool)
    (pct pcs : String → List String)
    (pcth : String → Option ContentTypeParse)
    (msg : Message) (state : ReqState) : Except (ETag α) HeadersOut :=
  if msg.method ≠ stages.method then
    .error (.WrongMethod msg.method)
  else do
    runCheckUpgrade stages.checkUpgrade isWebsocketRequest
    runCheckAuth stages.checkAuth msg.headers state.cookies
    runCheckAccept stages.checkAccept pct pcs msg.headers isWebsocketRequest
      (matcherOf stages.matcher)
    runCheckContentType stages.checkContentType pcth msg.headers
    pure {
      cookies := state.cookies
      config := state.config
      url := state.url
      isWebsocketRequest := isWebsocketRequest
      token := hget state.cookies AUTH_COOKIE_NAME
    }

end ServerV2

namespace Shared

/-- Error values of the WebSocket message wrapper (src/unnamed/part_005,
shared.js, and its declarations in src/unnamed/part_002).  The InvalidMessage
variant also carries the opaque validator diagnostic in the source; the
diagnostic is elided here because the opaque validator failure carries no
modelled content. -/
inductive WSMsgError where
  | NonStringMessage (message : WSData)
  | NonJSONMessage (message : String)
  | InvalidMessage (message : String)
  deriving DecidableEq, Repr

/-- Per-frame WebSocket message wrapper validateWebSocketMessage
(src/unnamed/part_005): non-string data is rejected as NonStringMessage, text
that the external parseJSONString helper cannot parse as NonJSONMessage, JSON
failing shape validation as InvalidMessage, and otherwise the validated value
is returned as the success.  The function messageToResult of server.js lines
586 to 602 is the same logic. -/
def validateWebSocketMessage {α : Type} (pjs : String → Option α)
    (validator : α → VResult α) : WSData → Except WSMsgError α
  | .binary bytes => .error (.NonStringMessage (.binary bytes))
  | .text message =>
    match pjs message with
    | none => .error (.NonJSONMessage message)
    | some json =>
      match validator json with
      | .failure => .error (.InvalidMessage message)
      | .success v => .ok v

/-- Outcomes of a sequence of inbound frames under the V1 message listener
(server.js lines 418 to 424): the same wrapper closure is invoked once per
frame, so the outcome list is the frame-wise image of
validateWebSocketMessage. -/
def socketFrameResults {α : Type} (pjs : String → Option α)
    (validator : α → VResult α) (frames : List WSData) :
    List (Except WSMsgError α) :=
  frames.map (validateWebSocketMessage pjs validator)

end Shared

/-
Concrete models of the external collaborators, used to evaluate the embedded
pipeline on concrete requests.  They realise the documented contracts of the
external helpers on the inputs occurring in the fixtures.
-/

/-- Model of parseWebSocketHeaders: succeeds exactly when the Upgrade header
is the string websocket, failing with an opaque error otherwise. -/
def pwshModel (headers : List (String × String)) :
    Except WSParseError ParsedWS :=
  if hget headers "Upgrade" = some "websocket" then .ok ⟨"key"⟩
  else .error ⟨"missing upgrade headers"⟩

/-- Accumulating decimal parse of a character list, rejecting any non-digit
character. -/
def digitsToNat : List Char → Nat → Option Nat
  | [], acc => some acc
  | c :: cs, acc =>
    if c.isDigit then digitsToNat cs (acc * 10 + (c.toNat - 48)) else none

/-- Model of parseContentLengthHeader: decimal parse of the header value. -/
def pclModel (s : String) : Option Nat :=
  if s.data.isEmpty then none else digitsToNat s.data 0

/-- Model of parseCharSetContentTypeHeader on the headers used in the
fixtures. -/
def pcctModel (h : String) : Option CharSetContentType :=
  if h = "application/json; charset=utf-8" then
    some ⟨"application/json", some "utf-8"⟩
  else none

/-- Model of the hapi mediaTypes parser: a single literal media type parses
to the one-element preference list. -/
def pctModel (s : String) : List String :=
  [s]

/-- Model of the hapi charsets parser: a single literal charset parses to the
one-element preference list. -/
def pcsModel (s : String) : List String :=
  [s]

/-- Model of parseContentTypeHeader (V2 variant) on the headers used in the
fixtures. -/
def pcthModel (h : String) : Option ServerV2.ContentTypeParse :=
  if h = "application/json; charset=utf-8" then
    some ⟨"application/json", some "utf-8"⟩
  else none

/-- Opaque websocket sub-contract used by the websocket fixtures. -/
def wsCommUnit : WSComm Unit :=
  ⟨fun _ => .success (), fun _ => .success ()⟩

/-- Fixture: endpoint declaring auth none, the documented no-check auth
policy. -/
def epAuthNone : Endpoint Unit :=
  { auth := some "none", responses := [(200, .html)] }

/-- Fixture: endpoint leaving auth absent, the documented default. -/
def epAuthAbsent : Endpoint Unit :=
  { responses := [(200, .html)] }

/-- Fixture: GET request carrying neither the CSRF header nor the auth
cookie, with acceptable negotiation headers. -/
def msgPlainGET : Message :=
  { method := "GET", headers := [("Accept", "text/html"), ("Accept-Charset", "utf-8")] }

/-- Fixture: empty initial request state. -/
def stEmpty : ReqState :=
  { cookies := [], config := {}, url := ⟨[]⟩ }

/-- CLAIM C1.  The compiled V1 pipeline does not exist for endpoints with
auth none or absent: the stage compiler throws the programming error
Unexpected endpoint auth type for both, contradicting the schema and server
declaration files, which admit auth none and type its pipeline state.  The
V2 historical variant implements the documented behaviour: its compiled
pipeline runs the same CSRF-less, cookie-less request through the headers
stage with no auth-related error, producing the ok state with
isWebsocketRequest false and no token. -/
theorem C1_auth_none_compile_throws :
    ServerV1.compile epAuthNone = .error "Unexpected endpoint auth type" ∧
    ServerV1.compile epAuthAbsent = .error "Unexpected endpoint auth type" ∧
    ServerV2.headersHandlerRun (α := Unit) (ServerV2.compile epAuthAbsent)
        false pctModel pcsModel pcthModel msgPlainGET stEmpty =
      .ok { cookies := [], config := {}, url := ⟨[]⟩,
            isWebsocketRequest := false, token := none } := by
  refine ⟨by decide, by decide, by decide⟩

/-- Fixture: POST endpoint declaring files, with optional auth so that the V1
stage compiler accepts it. -/
def epFiles : Endpoint Unit :=
  { method := some "POST", auth := some "optional", files := some ["file"],
    responses := [(200, .json)] }

/-- Stage set the V1 compiler produces for the files endpoint. -/
def stagesFiles : ServerV1.Stages :=
  { method := "POST", checkUpgrade := .nonWS, checkAuth := .optional,
    checkContent := some .withFiles, bodyStrategy := .filesOnly }

/-- Fixture: multipart request with Content-Length 500 and the CSRF header
required by the optional auth policy. -/
def msgMultipart500 : Message :=
  { method := "POST",
    headers := [("X-CSRF", "token"),
      ("Content-Type", "multipart/form-data; boundary=x"),
      ("Content-Length", "500")] }

/-- Configuration of claim C2: maximumFileSize 100, maximumFileCount 1, every
other multipart limit absent. -/
def cfgC2 : Config :=
  { multipart := some ⟨none, some 100, some 1, none⟩ }

/-- Configuration with maximumFieldsSize additionally set to 0, making the
total size bound finite. -/
def cfgC2fields : Config :=
  { multipart := some ⟨none, some 100, some 1, some 0⟩ }

/-- Request state carrying the C2 configuration. -/
def stC2 : ReqState :=
  { cookies := [], config := cfgC2, url := ⟨[]⟩ }

/-- Request state carrying the configuration with the finite fields limit. -/
def stC2fields : ReqState :=
  { cookies := [], config := cfgC2fields, url := ⟨[]⟩ }

/-- CLAIM C2, counterexample.  With maximumFileSize 100, maximumFileCount 1
and every other multipart limit absent, the upper bound computed by the V1
content check is 100 * 1 + Infinity = Infinity, so the request with
Content-Length 500 passes the headers stage: it does not fail with
MultipartMaximumTotalFileSizeExceeded as the claim states. -/
theorem C2_content_length_passes_headers_stage :
    ServerV1.compile epFiles = .ok stagesFiles ∧
    ServerV1.headersHandlerRun (α := Unit) stagesFiles pwshModel pclModel
        pcctModel msgMultipart500 stC2 =
      .ok { cookies := [], config := cfgC2, url := ⟨[]⟩,
            webSocket := .jsUndefined, token := none } := by
  refine ⟨by decide, by decide⟩

/-- CLAIM C2, amended.  The failure the claim describes occurs once
maximumFieldsSize is also configured: with maximumFieldsSize 0 the bound is
100 * 1 + 0 = 100, the request with Content-Length 500 fails at the headers
stage with MultipartMaximumTotalFileSizeExceeded, and no continuation of the
pipeline, in particular the multipart Body Reader, is ever invoked; with
maximumFieldsSize absent the bound is unbounded and the same request passes
the headers stage. -/
theorem C2_amended_total_size_bound (β : Type)
    (f : ServerV1.HeadersOut → Except (ETag Unit) β) :
    (ServerV1.headersHandlerRun stagesFiles pwshModel pclModel pcctModel
        msgMultipart500 stC2fields).bind f =
      .error .MultipartMaximumTotalFileSizeExceeded ∧
    (ServerV1.headersHandlerRun (α := Unit) stagesFiles pwshModel pclModel
        pcctModel msgMultipart500 stC2).isOk = true := by
  have h : ServerV1.headersHandlerRun (α := Unit) stagesFiles pwshModel
      pclModel pcctModel msgMultipart500 stC2fields =
      .error .MultipartMaximumTotalFileSizeExceeded := by decide
  exact ⟨by rw [h]; rfl, by decide⟩

/-- Witness for the amended C2 theorem at a concrete continuation. -/
theorem C2_amended_total_size_bound_witness :
    (ServerV1.headersHandlerRun stagesFiles pwshModel pclModel pcctModel
        msgMultipart500 stC2fields).bind
      (fun out => (.ok out : Except (ETag Unit) ServerV1.HeadersOut)) =
      .error .MultipartMaximumTotalFileSizeExceeded :=
  (C2_amended_total_size_bound ServerV1.HeadersOut (fun out => .ok out)).1

/-- Auxiliary fact about list search: when the first list contains no match,
searching the concatenation searches the second list. -/
theorem find?_append_of_none {γ : Type} (p : γ → Bool) (l₁ l₂ : List γ)
    (h : l₁.find? p = none) : (l₁ ++ l₂).find? p = l₂.find? p := by
  induction l₁ with
  | nil => rfl
  | cons a l ih =>
    by_cases hp : p a
    · rw [List.find?_cons_of_pos _ hp] at h
      exact absurd h (by simp)
    · rw [List.find?_cons_of_neg _ hp] at h
      rw [List.cons_append, List.find?_cons_of_neg _ hp]
      exact ih h

/-- Setting an absent key with the JS Map.set method makes it readable with
the written value. -/
theorem hget_mapSet_same (l : List (String × String)) (k v : String)
    (h : mapHas l k = false) : hget (mapSet l k v) k = some v := by
  have hf : l.find? (fun p => p.1 = k) = none := by
    unfold mapHas at h
    cases hfind : l.find? (fun p => p.1 = k) with
    | none => rfl
    | some q => rw [hfind] at h; exact absurd h (by simp)
  unfold mapSet
  rw [if_neg (by simp [mapHas, hf])]
  unfold hget
  rw [find?_append_of_none _ _ _ hf]
  simp [List.find?]

/-- A key readable from the headers map is present in the JS Map.has
sense. -/
theorem mapHas_of_hget_some (l : List (String × String)) (k ct : String)
    (h : hget l k = some ct) : mapHas l k = true := by
  unfold hget at h
  unfold mapHas
  cases hfind : l.find? (fun p => p.1 = k) with
  | none => rw [hfind] at h; exact absurd h (by simp)
  | some q => simp

/-- CLAIM C3.  For a status whose declared response kind is json, the V1
Response Shaper (finalHandler) serialises the body with the external
JSON.stringify built-in, and under the JSON built-in round-trip contract
(parameter hypothesis hcodec) the serialised body parses back to the original
value; the Content-Type header is set to application/json; charset=utf-8
exactly when the user stage set none, and a user-set Content-Type header is
left unchanged. -/
theorem C3_json_response_shaping {α β : Type} (stringify : β → String)
    (parse : String → Option β) (ep : Endpoint α) (status : Nat)
    (headers : List (String × String)) (body : β)
    (hjson : lookupResponse ep.responses status = some .json)
    (hcodec : parse (stringify body) = some body) :
    ServerV1.finalHandler stringify ep (.responseState status headers body) =
      .ok (.response status
        (if mapHas headers "Content-Type" then headers
         else mapSet headers "Content-Type" "application/json; charset=utf-8")
        (.jsonString (stringify body))) ∧
    parse (stringify body) = some body ∧
    (mapHas headers "Content-Type" = false →
      hget (if mapHas headers "Content-Type" then headers
            else mapSet headers "Content-Type" "application/json; charset=utf-8")
        "Content-Type" = some "application/json; charset=utf-8") ∧
    (∀ ct, hget headers "Content-Type" = some ct →
      hget (if mapHas headers "Content-Type" then headers
            else mapSet headers "Content-Type" "application/json; charset=utf-8")
        "Content-Type" = some ct) := by
  refine ⟨by simp [ServerV1.finalHandler, hjson], hcodec, ?_, ?_⟩
  · intro h
    rw [if_neg (by simp [h])]
    exact hget_mapSet_same headers _ _ h
  · intro ct hct
    rw [if_pos (by simp [mapHas_of_hget_some headers _ _ hct])]
    exact hct

/-- JSON serialisation of booleans, the concrete fragment of JSON.stringify
used to instantiate the codec parameters. -/
def jsonStringifyBool (b : Bool) : String :=
  if b then "true" else "false"

/-- JSON parsing of booleans, the concrete fragment of JSON.parse used to
instantiate the codec parameters. -/
def jsonParseBool (s : String) : Option Bool :=
  if s = "true" then some true else if s = "false" then some false else none

/-- Fixture: endpoint declaring a json response for status 200. -/
def epJson : Endpoint Unit :=
  { auth := some "optional", responses := [(200, .json)] }

/-- Witness for C3 at the boolean body true with the concrete boolean JSON
codec. -/
theorem C3_json_response_shaping_witness :
    ServerV1.finalHandler jsonStringifyBool epJson (.responseState 200 [] true) =
      .ok (.response 200
        (if mapHas [] "Content-Type" then []
         else mapSet [] "Content-Type" "application/json; charset=utf-8")
        (.jsonString (jsonStringifyBool true))) ∧
    jsonParseBool (jsonStringifyBool true) = some true :=
  ⟨(C3_json_response_shaping jsonStringifyBool jsonParseBool epJson 200 [] true
      (by decide) (by decide)).1,
   (C3_json_response_shaping jsonStringifyBool jsonParseBool epJson 200 [] true
      (by decide) (by decide)).2.1⟩

/-- CLAIM C6.  When the user body stage returns a status with no entry in the
responses map, the V1 Response Shaper reaches the default switch branch and
throws the programming error Unexpected response status; the thrown channel
is distinct from the tagged error responses of the earlier stages, so no
tagged client-facing error is produced. -/
theorem C6_unconfigured_status_throws {α β : Type} (stringify : β → String)
    (ep : Endpoint α) (status : Nat) (headers : List (String × String))
    (body : β)
    (h : lookupResponse ep.responses status = none) :
    ServerV1.finalHandler stringify ep (.responseState status headers body) =
      .error "Unexpected response status" := by
  simp [ServerV1.finalHandler, h]

/-- Witness for C6 at status 201, which the json-only fixture endpoint does
not declare. -/
theorem C6_unconfigured_status_throws_witness :
    ServerV1.finalHandler jsonStringifyBool epJson (.responseState 201 [] true) =
      .error "Unexpected response status" :=
  C6_unconfigured_status_throws jsonStringifyBool epJson 201 [] true (by decide)

/-- Fixture: endpoint declaring both html and json responses. -/
def epBoth : Endpoint Unit :=
  { auth := some "optional", responses := [(200, .html), (400, .json)] }

/-- Stage set the V1 compiler produces for the endpoint declaring both
response kinds. -/
def stagesBoth : ServerV1.Stages :=
  { method := "GET", checkUpgrade := .nonWS, checkAuth := .optional,
    checkContent := none, bodyStrategy := .noHandler }

/-- Fixture: GET request preferring the unsupported media type text/xml with
no wildcard. -/
def msgAcceptXML : Message :=
  { method := "GET", headers := [("X-CSRF", "t"), ("Accept", "text/xml")] }

/-- Fixture: GET request preferring application/json with a UTF-8 charset
preference. -/
def msgAcceptJSON : Message :=
  { method := "GET",
    headers := [("X-CSRF", "t"), ("Accept", "application/json"),
      ("Accept-Charset", "utf-8")] }

/-- CLAIM C4, counterexample.  The current (V1) headers stage performs no
content negotiation at all: on the endpoint declaring both html and json
responses, the request with Accept text/xml and no wildcard passes the
headers stage instead of failing with InvalidAcceptHeader. -/
theorem C4_text_xml_passes_current_headers_stage :
    ServerV1.compile epBoth = .ok stagesBoth ∧
    (ServerV1.headersHandlerRun (α := Unit) stagesBoth pwshModel pclModel
        pcctModel msgAcceptXML stEmpty).isOk = true ∧
    ServerV1.headersHandlerRun (α := Unit) stagesBoth pwshModel pclModel
        pcctModel msgAcceptXML stEmpty ≠
      .error (.InvalidAcceptHeader (some "text/xml")) := by
  refine ⟨by decide, by decide, by decide⟩

/-- CLAIM C4, amended.  Content negotiation lives in the historical V2
variant: there, for the matcher selected for endpoints declaring both html
and json responses, a non-upgrade request whose Accept preferences include
application/json and whose Accept-Charset preferences include utf-8 passes
the check, and a request whose Accept header is text/xml with no wildcard
fails it with InvalidAcceptHeader; the V2 compiler selects exactly that
matcher for the two-kind endpoint.  The current V1 headers stage performs no
Accept check, so both requests pass it. -/
theorem C4_amended_accept_negotiation {α : Type}
    (pct pcs : String → List String) (headers : List (String × String)) :
    (∀ a c, hget headers "Accept" = some a → "application/json" ∈ pct a →
      hget headers "Accept-Charset" = some c → "utf-8" ∈ pcs c →
      ServerV2.checkAcceptForEndpointWithResponses (α := α) pct pcs headers
        false ServerV2.isHTMLOrJSONOrAnyContentType = .ok ()) ∧
    (hget headers "Accept" = some "text/xml" → pct "text/xml" = ["text/xml"] →
      ServerV2.checkAcceptForEndpointWithResponses (α := α) pct pcs headers
        false ServerV2.isHTMLOrJSONOrAnyContentType =
        .error (.InvalidAcceptHeader (some "text/xml"))) ∧
    ServerV2.matcherOf (ServerV2.compile epBoth).matcher =
      ServerV2.isHTMLOrJSONOrAnyContentType ∧
    (ServerV1.headersHandlerRun (α := Unit) stagesBoth pwshModel pclModel
        pcctModel msgAcceptJSON stEmpty).isOk = true ∧
    (ServerV1.headersHandlerRun (α := Unit) stagesBoth pwshModel pclModel
        pcctModel msgAcceptXML stEmpty).isOk = true := by
  refine ⟨?_, ?_, rfl, by decide, by decide⟩
  · intro a c h1 h2 h3 h4
    have ha : (pct a).any ServerV2.isHTMLOrJSONOrAnyContentType = true :=
      List.any_eq_true.mpr ⟨"application/json", h2, by decide⟩
    have hc : (pcs c).any ServerV2.isUTF8Charset = true :=
      List.any_eq_true.mpr ⟨"utf-8", h4, by decide⟩
    simp [ServerV2.checkAcceptForEndpointWithResponses, h1, h3, ha, hc]
  · intro h1 h2
    simp [ServerV2.checkAcceptForEndpointWithResponses, h1, h2,
      ServerV2.isHTMLOrJSONOrAnyContentType]

/-- Witness for the amended C4 theorem at singleton preference lists. -/
theorem C4_amended_accept_negotiation_witness :
    ServerV2.checkAcceptForEndpointWithResponses (α := Unit) pctModel pcsModel
      [("Accept", "application/json"), ("Accept-Charset", "utf-8")] false
      ServerV2.isHTMLOrJSONOrAnyContentType = .ok () ∧
    ServerV2.checkAcceptForEndpointWithResponses (α := Unit) pctModel pcsModel
      [("Accept", "text/xml")] false ServerV2.isHTMLOrJSONOrAnyContentType =
      .error (.InvalidAcceptHeader (some "text/xml")) :=
  ⟨(C4_amended_accept_negotiation pctModel pcsModel
      [("Accept", "application/json"), ("Accept-Charset", "utf-8")]).1
      "application/json" "utf-8" (by decide) (by decide) (by decide) (by decide),
   (C4_amended_accept_negotiation pctModel pcsModel
      [("Accept", "text/xml")]).2.1 (by decide) (by decide)⟩

/-- Auxiliary fact about the response-flag loop: once one flag is set, the
disjunction of the final flags is true. -/
theorem responseFlags_or_mono (rs : List (Nat × RespKind)) :
    ∀ hj hh : Bool, (hj || hh) = true →
      ((responseFlags rs hj hh).1 || (responseFlags rs hj hh).2) = true := by
  induction rs with
  | nil =>
    intro hj hh h
    simpa [responseFlags] using h
  | cons r rest ih =>
    intro hj hh _
    obtain ⟨n, k⟩ := r
    by_cases hk : k = RespKind.html
    · subst hk
      cases hj with
      | true => simp [responseFlags]
      | false => simpa [responseFlags] using ih false true rfl
    · cases hh with
      | true => simp [responseFlags, hk]
      | false => simpa [responseFlags, hk] using ih true false rfl

/-- A nonempty responses map always yields at least one response flag, hence
hasResponses is true. -/
theorem responseFlags_cons_or (r : Nat × RespKind) (rest : List (Nat × RespKind)) :
    ((responseFlags (r :: rest) false false).1 ||
      (responseFlags (r :: rest) false false).2) = true := by
  obtain ⟨n, k⟩ := r
  by_cases hk : k = RespKind.html
  · subst hk
    simpa [responseFlags] using responseFlags_or_mono rest false true rfl
  · simpa [responseFlags, hk] using responseFlags_or_mono rest true false rfl

/-- Closed form of the V1 stage compiler: it maps the auth stage selection
over the record of statically selected stages. -/
theorem ServerV1.compile_eq {α : Type} (ep : Endpoint α) :
    ServerV1.compile ep = (ServerV1.selectAuthCheck ep.auth).map (fun ac =>
      { method := ep.method.getD "GET"
        checkUpgrade :=
          if ep.websocket.isSome then
            if (responseFlags ep.responses false false).1 ||
                (responseFlags ep.responses false false).2 then
              ServerV1.UpgradeCheck.wsWithResponses
            else ServerV1.UpgradeCheck.wsNoResponses
          else ServerV1.UpgradeCheck.nonWS
        checkAuth := ac
        checkContent :=
          if ep.method.getD "GET" ≠ "GET" then
            if ep.files.isNone then
              if ep.input.isSome then some ServerV1.ContentCheck.inputNoFiles
              else none
            else some ServerV1.ContentCheck.withFiles
          else none
        bodyStrategy :=
          if ep.method.getD "GET" = "GET" then
            if ep.input.isSome then ServerV1.BodyStrategy.getInput
            else ServerV1.BodyStrategy.noHandler
          else if ep.files.isSome then
            if ep.input.isNone then ServerV1.BodyStrategy.filesOnly
            else ServerV1.BodyStrategy.filesAndInput
          else if ep.input.isSome then ServerV1.BodyStrategy.jsonInput
          else ServerV1.BodyStrategy.noHandler }) := by
  unfold ServerV1.compile
  cases ServerV1.selectAuthCheck ep.auth <;> rfl

/-- Fixture: websocket endpoint with an empty responses map. -/
def epWsNoResp : Endpoint Unit :=
  { auth := some "optional", responses := [], websocket := some wsCommUnit }

/-- Stage set the V1 compiler produces for the websocket endpoint without
responses. -/
def stagesWsNoResp : ServerV1.Stages :=
  { method := "GET", checkUpgrade := .wsNoResponses, checkAuth := .optional,
    checkContent := none, bodyStrategy := .noHandler }

/-- Fixture: websocket endpoint with one ordinary json response. -/
def epWsWithResp : Endpoint Unit :=
  { auth := some "optional", responses := [(200, .json)],
    websocket := some wsCommUnit }

/-- Stage set the V1 compiler produces for the websocket endpoint with a
response. -/
def stagesWsWithResp : ServerV1.Stages :=
  { method := "GET", checkUpgrade := .wsWithResponses, checkAuth := .optional,
    checkContent := none, bodyStrategy := .noHandler }

/-- Fixture: GET request without WebSocket upgrade headers, carrying the
CSRF header. -/
def msgNoUpgrade : Message :=
  { method := "GET", headers := [("X-CSRF", "t")] }

/-- CLAIM C5, counterexample.  On the websocket endpoint with no responses,
the V1 headers stage rejects the non-upgrade request with the tag
UpgradeError carrying the parse failure, not with the tag UpgradeRequired
the claim states. -/
theorem C5_upgrade_error_not_upgrade_required :
    ServerV1.compile epWsNoResp = .ok stagesWsNoResp ∧
    ServerV1.headersHandlerRun (α := Unit) stagesWsNoResp pwshModel pclModel
        pcctModel msgNoUpgrade stEmpty =
      .error (.UpgradeError ⟨"missing upgrade headers"⟩) ∧
    ServerV1.headersHandlerRun (α := Unit) stagesWsNoResp pwshModel pclModel
        pcctModel msgNoUpgrade stEmpty ≠ .error .UpgradeRequired := by
  refine ⟨by decide, by decide, by decide⟩

/-- CLAIM C5, amended.  Under the current V1 pipeline: for every websocket
descriptor with an empty responses map, a request whose headers fail the
websocket parse (in particular one lacking upgrade headers) fails the headers
stage with UpgradeError carrying that failure; for every websocket descriptor
with at least one ordinary response, the same request passes the headers
stage with no error, carrying the failed parse result in the webSocket field
of the state.  The tag UpgradeRequired and the isWebsocketRequest flag
belong to the historical V2 variant. -/
theorem C5_amended_websocket_upgrade {α : Type} (ep : Endpoint α)
    (w : WSComm α)
    (pwsh : List (String × String) → Except WSParseError ParsedWS)
    (pcl : String → Option Nat) (pcct : String → Option CharSetContentType)
    (msg : Message) (st : ReqState) (e : WSParseError)
    (stages : ServerV1.Stages)
    (hws : ep.websocket = some w)
    (hcompile : ServerV1.compile ep = .ok stages)
    (hmethod : msg.method = stages.method)
    (hpwsh : pwsh msg.headers = .error e) :
    (ep.responses = [] →
      ServerV1.headersHandlerRun (α := α) stages pwsh pcl pcct msg st =
        .error (.UpgradeError e)) ∧
    (ep.responses ≠ [] →
      ServerV1.runCheckAuth (α := α) stages.checkAuth msg.headers st.cookies = .ok () →
      ServerV1.runCheckContent (α := α) stages.checkContent pcl pcct msg.headers
        st.config = .ok () →
      ServerV1.headersHandlerRun (α := α) stages pwsh pcl pcct msg st =
        .ok { cookies := st.cookies, config := st.config, url := st.url,
              webSocket := .result (.error e),
              token := hget st.cookies AUTH_COOKIE_NAME }) := by
  rw [ServerV1.compile_eq] at hcompile
  cases hsel : ServerV1.selectAuthCheck ep.auth with
  | error s =>
    rw [hsel] at hcompile
    exact absurd hcompile (by simp [Except.map])
  | ok ac =>
    rw [hsel] at hcompile
    simp only [Except.map] at hcompile
    have hstages := (Except.ok.inj hcompile).symm
    constructor
    · intro hresp
      have hcu : stages.checkUpgrade = ServerV1.UpgradeCheck.wsNoResponses := by
        rw [hstages]
        simp [hws, hresp, responseFlags]
      simp [ServerV1.headersHandlerRun, hmethod, hcu, ServerV1.runCheckUpgrade,
        hpwsh]
      rfl
    · intro hresp hauth hcontent
      have hcu : stages.checkUpgrade = ServerV1.UpgradeCheck.wsWithResponses := by
        obtain ⟨r, rest, hcons⟩ := List.exists_cons_of_ne_nil hresp
        rw [hstages]
        simp [hws, hcons, responseFlags_cons_or r rest]
      simp [ServerV1.headersHandlerRun, hmethod, hcu, ServerV1.runCheckUpgrade,
        hpwsh, hauth, hcontent]
      rfl

/-- Witness for the amended C5 theorem on the two websocket fixtures. -/
theorem C5_amended_websocket_upgrade_witness :
    ServerV1.headersHandlerRun (α := Unit) stagesWsNoResp pwshModel pclModel
        pcctModel msgNoUpgrade stEmpty =
      .error (.UpgradeError ⟨"missing upgrade headers"⟩) ∧
    ServerV1.headersHandlerRun (α := Unit) stagesWsWithResp pwshModel pclModel
        pcctModel msgNoUpgrade stEmpty =
      .ok { cookies := stEmpty.cookies, config := stEmpty.config,
            url := stEmpty.url,
            webSocket := .result (.error ⟨"missing upgrade headers"⟩),
            token := hget stEmpty.cookies AUTH_COOKIE_NAME } :=
  ⟨(C5_amended_websocket_upgrade epWsNoResp wsCommUnit pwshModel pclModel
      pcctModel msgNoUpgrade stEmpty ⟨"missing upgrade headers"⟩
      stagesWsNoResp rfl (by decide) rfl (by decide)).1 rfl,
   (C5_amended_websocket_upgrade epWsWithResp wsCommUnit pwshModel pclModel
      pcctModel msgNoUpgrade stEmpty ⟨"missing upgrade headers"⟩
      stagesWsWithResp rfl (by decide) rfl (by decide)).2
      (by decide) (by decide) (by decide)⟩

/-- CLAIM C7.  The required-auth check tests the CSRF header before the auth
cookie: a missing CSRF header always yields CSRFHeaderRequired, whatever the
cookies, and AuthRequired is produced exactly when the CSRF header is present
and the auth cookie is absent. -/
theorem C7_csrf_precedes_cookie {α : Type}
    (headers cookies : List (String × String)) :
    (hget headers CSRF_HEADER = none →
      ServerV1.checkAuthForRequiredAuthEndpoint (α := α) headers cookies =
        .error .CSRFHeaderRequired) ∧
    (ServerV1.checkAuthForRequiredAuthEndpoint (α := α) headers cookies =
        .error .AuthRequired ↔
      hget headers CSRF_HEADER ≠ none ∧
        hget cookies AUTH_COOKIE_NAME = none) := by
  unfold ServerV1.checkAuthForRequiredAuthEndpoint
  cases hc : hget headers CSRF_HEADER with
  | none => simp
  | some t =>
    cases ha : hget cookies AUTH_COOKIE_NAME with
    | none => simp
    | some u => simp

/-- Witness for C7 on a request with neither the CSRF header nor any
cookie. -/
theorem C7_csrf_precedes_cookie_witness :
    ServerV1.checkAuthForRequiredAuthEndpoint (α := Unit) [] [] =
      .error .CSRFHeaderRequired :=
  (C7_csrf_precedes_cookie [] []).1 rfl

/-- CLAIM C8.  The GET body stage of the V1 pipeline: an absent JSON query
key yields URLQueryRequired, a value the JSON parser rejects yields
URLQueryMalformed, a parsed value failing shape validation yields
URLQueryInputInvalid, and a valid value reaches the pipeline state as the
input field; when the validator returns its argument, as the runtypes
validators do on success, the input is placed unchanged. -/
theorem C8_get_input_stage {α : Type} (pjs : String → Option α)
    (validate : α → VResult α) (state : ReqState) :
    (hget state.url.searchParams JSON_KEY = none →
      ServerV1.bodyHandlerGETInput pjs validate state =
        .error .URLQueryRequired) ∧
    (∀ q, hget state.url.searchParams JSON_KEY = some q → pjs q = none →
      ServerV1.bodyHandlerGETInput pjs validate state =
        .error (.URLQueryMalformed q)) ∧
    (∀ q j, hget state.url.searchParams JSON_KEY = some q → pjs q = some j →
      validate j = .failure →
      ServerV1.bodyHandlerGETInput pjs validate state =
        .error (.URLQueryInputInvalid j)) ∧
    (∀ q j v, hget state.url.searchParams JSON_KEY = some q → pjs q = some j →
      validate j = .success v →
      ServerV1.bodyHandlerGETInput pjs validate state = .ok (state, v)) ∧
    (∀ q j, hget state.url.searchParams JSON_KEY = some q → pjs q = some j →
      validate j = .success j →
      ServerV1.bodyHandlerGETInput pjs validate state = .ok (state, j)) := by
  refine ⟨?_, ?_, ?_, ?_, ?_⟩
  · intro h
    simp [ServerV1.bodyHandlerGETInput, h]
  · intro q hq hp
    simp [ServerV1.bodyHandlerGETInput, hq, hp]
  · intro q j hq hp hv
    simp [ServerV1.bodyHandlerGETInput, hq, hp, hv]
  · intro q j v hq hp hv
    simp [ServerV1.bodyHandlerGETInput, hq, hp, hv]
  · intro q j hq hp hv
    simp [ServerV1.bodyHandlerGETInput, hq, hp, hv]

/-- Fixture: request state whose URL query carries the JSON key with the
decimal text 42. -/
def stQuery42 : ReqState :=
  { cookies := [], config := {}, url := ⟨[("json", "42")]⟩ }

/-- Witness for C8: the valid query value 42 is parsed by the numeric JSON
fragment and placed unchanged into the pipeline state. -/
theorem C8_get_input_stage_witness :
    ServerV1.bodyHandlerGETInput pclModel VResult.success stQuery42 =
      .ok (stQuery42, 42) :=
  (C8_get_input_stage pclModel VResult.success stQuery42).2.2.2.2 "42" 42
    (by decide) (by decide) rfl

/-- CLAIM C9.  The per-frame WebSocket message wrapper produces exactly one
of four outcomes as a function of the frame and the declared up shape alone:
NonStringMessage for non-text frames, NonJSONMessage for text the JSON
parser rejects, InvalidMessage for JSON failing shape validation, and the
validated value as a success otherwise; over a frame sequence the outcome
list is extended frame by frame, each outcome depending only on its own
frame. -/
theorem C9_ws_message_outcomes {α : Type} (pjs : String → Option α)
    (validator : α → VResult α) :
    (∀ bytes, Shared.validateWebSocketMessage pjs validator (.binary bytes) =
      .error (.NonStringMessage (.binary bytes))) ∧
    (∀ s, pjs s = none →
      Shared.validateWebSocketMessage pjs validator (.text s) =
        .error (.NonJSONMessage s)) ∧
    (∀ s j, pjs s = some j → validator j = .failure →
      Shared.validateWebSocketMessage pjs validator (.text s) =
        .error (.InvalidMessage s)) ∧
    (∀ s j v, pjs s = some j → validator j = .success v →
      Shared.validateWebSocketMessage pjs validator (.text s) = .ok v) ∧
    (∀ frames d, Shared.socketFrameResults pjs validator (frames ++ [d]) =
      Shared.socketFrameResults pjs validator frames ++
        [Shared.validateWebSocketMessage pjs validator d]) := by
  refine ⟨fun bytes => rfl, ?_, ?_, ?_, ?_⟩
  · intro s hp
    simp [Shared.validateWebSocketMessage, hp]
  · intro s j hp hv
    simp [Shared.validateWebSocketMessage, hp, hv]
  · intro s j v hp hv
    simp [Shared.validateWebSocketMessage, hp, hv]
  · intro frames d
    simp [Shared.socketFrameResults]

/-- Witness for C9 on a binary frame under the numeric JSON fragment. -/
theorem C9_ws_message_outcomes_witness :
    Shared.validateWebSocketMessage pclModel VResult.success (.binary [0]) =
      .error (.NonStringMessage (.binary [0])) :=
  (C9_ws_message_outcomes pclModel VResult.success).1 [0]

/-- CLAIM C10.  The process-wide request conventions: the constants are the
literal strings json, X-CSRF and auth; the auth checks depend on the request
only through the X-CSRF header and auth cookie lookups; a successful headers
stage extracts its token from the auth cookie; the GET body stage requires
exactly the json query key; and the multipart body stage requires exactly the
json field. -/
theorem C10_request_conventions {α : Type} :
    (JSON_KEY = "json" ∧ CSRF_HEADER = "X-CSRF" ∧ AUTH_COOKIE_NAME = "auth") ∧
    (∀ h₁ h₂ c₁ c₂ : List (String × String),
      hget h₁ "X-CSRF" = hget h₂ "X-CSRF" → hget c₁ "auth" = hget c₂ "auth" →
      ServerV1.checkAuthForRequiredAuthEndpoint (α := α) h₁ c₁ =
        ServerV1.checkAuthForRequiredAuthEndpoint (α := α) h₂ c₂) ∧
    (∀ h₁ h₂ : List (String × String),
      hget h₁ "X-CSRF" = hget h₂ "X-CSRF" →
      ServerV1.checkAuthForOptionalAuthEndpoint (α := α) h₁ =
        ServerV1.checkAuthForOptionalAuthEndpoint (α := α) h₂) ∧
    (∀ stages pwsh pcl pcct msg st out,
      ServerV1.headersHandlerRun (α := α) stages pwsh pcl pcct msg st =
          .ok out →
      out.token = hget st.cookies "auth") ∧
    (∀ (pjs : String → Option α) validate st,
      ServerV1.bodyHandlerGETInput pjs validate st = .error .URLQueryRequired ↔
        hget st.url.searchParams "json" = none) ∧
    (∀ (mp : Except (ETag α) ServerV1.MultipartOut) pjs validate st parsed,
      mp = .ok parsed → hget parsed.fields "json" = none →
      ServerV1.bodyHandlerFilesAndInput mp pjs validate st =
        .error .MultipartJSONFieldRequired) := by
  refine ⟨⟨rfl, rfl, rfl⟩, ?_, ?_, ?_, ?_, ?_⟩
  · intro h₁ h₂ c₁ c₂ hh hc
    unfold ServerV1.checkAuthForRequiredAuthEndpoint
    rw [show CSRF_HEADER = "X-CSRF" from rfl,
      show AUTH_COOKIE_NAME = "auth" from rfl, hh, hc]
  · intro h₁ h₂ hh
    unfold ServerV1.checkAuthForOptionalAuthEndpoint
    rw [show CSRF_HEADER = "X-CSRF" from rfl, hh]
  · intro stages pwsh pcl pcct msg st out h
    unfold ServerV1.headersHandlerRun at h
    by_cases hm : msg.method ≠ stages.method
    · rw [if_pos hm] at h
      exact absurd h (by simp)
    · rw [if_neg hm] at h
      cases hu : ServerV1.runCheckUpgrade (α := α) stages.checkUpgrade pwsh
          msg.headers with
      | error e => rw [hu] at h; exact Except.noConfusion h
      | ok ws =>
        rw [hu] at h
        cases ha : ServerV1.runCheckAuth (α := α) stages.checkAuth msg.headers
            st.cookies with
        | error e => rw [ha] at h; exact Except.noConfusion h
        | ok _ =>
          rw [ha] at h
          cases hc : ServerV1.runCheckContent (α := α) stages.checkContent pcl
              pcct msg.headers st.config with
          | error e => rw [hc] at h; exact Except.noConfusion h
          | ok _ =>
            rw [hc] at h
            have h2 : Except.ok (ε := ETag α)
                ({ cookies := st.cookies, config := st.config, url := st.url,
                   webSocket := ws,
                   token := hget st.cookies AUTH_COOKIE_NAME } :
                  ServerV1.HeadersOut) = .ok out := h
            rw [← Except.ok.inj h2]
            rfl
  · intro pjs validate st
    rw [show ("json" : String) = JSON_KEY from rfl]
    unfold ServerV1.bodyHandlerGETInput
    cases hq : hget st.url.searchParams JSON_KEY with
    | none => simp
    | some q =>
      cases hp : pjs q with
      | none => simp [hp]
      | some j =>
        cases hv : validate j with
        | failure => simp [hp, hv]
        | success v => simp [hp, hv]
  · intro mp pjs validate st parsed hmp hf
    subst hmp
    rw [show ("json" : String) = JSON_KEY from rfl] at hf
    simp [ServerV1.bodyHandlerFilesAndInput, hf]

/-- Witness for C10: the multipart body stage with empty fields demands the
json field. -/
theorem C10_request_conventions_witness :
    ServerV1.bodyHandlerFilesAndInput (α := Unit) (.ok ⟨[], []⟩)
      (fun _ => none) VResult.success stEmpty =
      .error .MultipartJSONFieldRequired :=
  (C10_request_conventions (α := Unit)).2.2.2.2.2 (.ok ⟨[], []⟩)
    (fun _ => none) VResult.success stEmpty ⟨[], []⟩ rfl rfl
